import Mathlib

/-!
Verification development for the dispatcher core of a Django REST API
library.  The embedding below follows the two source files of the
repository: the registry (`RESTAPI` in `__init__.py`) and the dispatcher
(`RESTView` in `views.py`).  Python exceptions are modelled with an
explicit error type, Python `None`-or-value returns with a reply type,
and the mutable database behind the Django ORM with an explicit record
that every operation threads.
-/

set_option maxHeartbeats 1000000

namespace RestApi

/-! ## Registry (`src/__init__.py`) -/

/-- A Python class object: an identity together with the list of immediate
base classes in declaration order, mirroring `Model.__bases__`. -/
inductive PyType where
  | mk (id : Nat) (bases : List PyType)

def PyType.id : PyType → Nat
  | .mk i _ => i

def PyType.bases : PyType → List PyType
  | .mk _ bs => bs

mutual

/-- `RESTAPI.get_view_by_model`: exact lookup in `view_by_model` keyed by
class identity, otherwise recurse over `Model.__bases__` in declaration
order, returning the first registered view found, or `none`. -/
def getViewByModel (reg : List (Nat × Nat)) : PyType → Option Nat
  | .mk i bases =>
    match reg.lookup i with
    | some v => some v
    | none => getViewByBases reg bases

/-- The `for Base in Model.__bases__` loop of `get_view_by_model`. -/
def getViewByBases (reg : List (Nat × Nat)) : List PyType → Option Nat
  | [] => none
  | b :: bs =>
    match getViewByModel reg b with
    | some v => some v
    | none => getViewByBases reg bs

end

/-- First non-`none` entry of a list of options. -/
def firstSome {α : Type} : List (Option α) → Option α
  | [] => none
  | o :: os =>
    match o with
    | some v => some v
    | none => firstSome os

theorem getViewByBases_eq_firstSome (reg : List (Nat × Nat)) (bs : List PyType) :
    getViewByBases reg bs = firstSome (bs.map (getViewByModel reg)) := by
  induction bs with
  | nil => rfl
  | cons b bs ih =>
    simp only [getViewByBases, List.map, firstSome]
    cases getViewByModel reg b <;> simp [ih]

theorem getViewByModel_mk (reg : List (Nat × Nat)) (i : Nat) (bs : List PyType) :
    getViewByModel reg (.mk i bs) =
      match reg.lookup i with
      | some v => some v
      | none => firstSome (bs.map (getViewByModel reg)) := by
  simp only [getViewByModel]
  cases reg.lookup i <;> simp [getViewByBases_eq_firstSome]

theorem firstSome_append_some {α : Type} (pre post : List (Option α)) (o : Option α)
    (hpre : ∀ x ∈ pre, x = none) (ho : o.isSome) :
    firstSome (pre ++ o :: post) = o := by
  induction pre with
  | nil =>
    cases o with
    | none => simp at ho
    | some v => rfl
  | cons p ps ih =>
    have hp : p = none := hpre p (by simp)
    subst hp
    simp only [List.cons_append, firstSome]
    exact ih (fun x hx => hpre x (by simp [hx]))

/-! ## Dispatcher data model (`src/views.py`) -/

/-- A field value of an entity (string or integer). -/
inductive Value where
  | s (v : String)
  | n (v : Nat)
deriving DecidableEq, Repr

/-- A Django model field descriptor as seen through `model._meta`:
`rel` is the identity of the target model for reference fields
(`field.rel.to`), `none` for scalar fields; `m2m` marks many-to-many
fields. -/
structure Field where
  name : String
  editable : Bool
  primary_key : Bool
  rel : Option Nat
  m2m : Bool
deriving DecidableEq, Repr

/-- Model meta data: identity, class name, and the list of fields.
`get_all_field_names` is the list of all names; `_meta.fields` is the
sublist of non many-to-many entries. -/
structure ModelMeta where
  id : Nat
  name : String
  fields : List Field
deriving DecidableEq, Repr

/-- A persisted model instance: its model identity, primary key and
field values. -/
structure Entity where
  model : Nat
  pk : Nat
  vals : List (String × Value)
deriving DecidableEq, Repr

def Entity.val (e : Entity) (f : String) : Option Value :=
  e.vals.lookup f

/-- The persistent store behind the ORM: all entities, the many-to-many
link rows `(owner model, owner pk, link name, linked pk)`, and the next
primary key handed out on save of a new instance. -/
structure DB where
  entities : List Entity
  links : List (Nat × Nat × String × Nat)
  nextPk : Nat
deriving DecidableEq, Repr

/-- How a callable attribute of a model class is declared. -/
inductive MethKind where
  | staticM
  | classM
  | instM
deriving DecidableEq, Repr

/-- The value produced by `json.loads` of a request body: a dictionary,
or some other JSON value (`create_entity` only checks
`isinstance(data, dict)`). -/
inductive PyData where
  | dict (kvs : List (String × Value))
  | other
deriving DecidableEq, Repr

/-- A method declared on a model class.  `run` is its body applied to the
decoded request data (the request object adds nothing observable in this
embedding). -/
structure Method where
  kind : MethKind
  run : PyData → Value

/-- The static environment of one concrete `RESTView`: the metas of every
model, the methods declared on each model class, and the identity of the
model returned by `get_model`. -/
structure Env where
  models : List ModelMeta
  methods : List (Nat × String × Method)
  model : Nat

def Env.metaOf (env : Env) (mid : Nat) : ModelMeta :=
  (env.models.find? (fun m => m.id == mid)).getD ⟨mid, "", []⟩

/-- The meta of the model served by this view (`get_model`). -/
def Env.meta (env : Env) : ModelMeta :=
  env.metaOf env.model

def Env.methodOf (env : Env) (mid : Nat) (name : String) : Option Method :=
  (env.methods.find? (fun t => t.1 == mid && t.2.1 == name)).map (fun t => t.2.2)

/-- The shape of `getattr(cls_or_obj, name, None)` in Python 2: a plain
function (`type(x) == type(lambda: 0)`), a bound method (`im_self` set),
an unbound method (`im_self` is `None`), or `None`. -/
inductive Attr where
  | func (m : Method)
  | boundM (m : Method)
  | unboundM (m : Method)
  | absent

/-- Attribute lookup on the model class: a static method is a plain
function, a class method is bound (to the class), an instance method is
unbound. -/
def classAttr (env : Env) (mid : Nat) (name : String) : Attr :=
  match env.methodOf mid name with
  | none => .absent
  | some m =>
    match m.kind with
    | .staticM => .func m
    | .classM => .boundM m
    | .instM => .unboundM m

/-- Attribute lookup on an instance: a static method is a plain function,
class methods and instance methods are both bound. -/
def instanceAttr (env : Env) (mid : Nat) (name : String) : Attr :=
  match env.methodOf mid name with
  | none => .absent
  | some m =>
    match m.kind with
    | .staticM => .func m
    | .classM => .boundM m
    | .instM => .boundM m

/-- The Python exceptions the dispatcher can raise or observe. -/
inductive Exc where
  | typeError (msg : String)
  | valueError (msg : String)
  | nameError (msg : String)
  | attributeError
  | http404 (msg : String)
  | multipleObjects
  | fieldDoesNotExist
deriving DecidableEq, Repr

/-- `str(e)` as used by the handlers when DEBUG is on. -/
def Exc.excStr : Exc → String
  | .typeError m => m
  | .valueError m => m
  | .nameError m => m
  | .attributeError => "AttributeError"
  | .http404 m => m
  | .multipleObjects => "MultipleObjectsReturned"
  | .fieldDoesNotExist => "FieldDoesNotExist"

/-- A value returned by a dispatcher operation before serialisation:
Python `None`, an entity, a list of entities, a plain value, or a
prebuilt `HttpResponse` (forbidden, bad request, or ad hoc body). -/
inductive Reply where
  | none
  | ent (e : Entity)
  | list (es : List Entity)
  | val (v : Value)
  | forbidden
  | badRequest (msg : String)
  | raw (body : String)
deriving DecidableEq, Repr

/-- What `get_entity` produces when it returns normally: the entity, or
the `HttpResponseForbidden()` object. -/
inductive EVal where
  | ent (e : Entity)
  | forb
deriving DecidableEq, Repr

def evalToReply : EVal → Reply
  | .ent e => .ent e
  | .forb => .forbidden

/-- The six authorization hooks as fields of the concrete view. -/
structure Hooks where
  can_get_entity : Entity → Bool
  can_get_linked_entity : Entity → String → Entity → Bool
  can_create_entity : List (String × Value) → Bool
  can_create_linked_entity : Entity → String → Entity → Bool
  can_edit_entity : Entity → Bool
  can_delete_entity : Entity → Bool
  can_delete_linked_entity : Entity → String → Entity → Bool

/-- Hooks built from the four base predicates following the default
delegation chain of the source: `can_edit_entity` calls
`can_get_entity`, `can_delete_entity` calls `can_edit_entity`, and
`can_delete_linked_entity` calls `can_create_linked_entity`. -/
def Hooks.ofBase (cg : Entity → Bool) (cgl : Entity → String → Entity → Bool)
    (cc : List (String × Value) → Bool)
    (ccl : Entity → String → Entity → Bool) : Hooks :=
  ⟨cg, cgl, cc, ccl, cg, cg, ccl⟩

/-- The always permissive default hooks shipped by `RESTView`. -/
def defaultHooks : Hooks :=
  Hooks.ofBase (fun _ => true) (fun _ _ _ => true) (fun _ => true)
    (fun _ _ _ => true)

/-- A queryset: the meta of its model together with its element list. -/
structure QuerySet where
  meta : ModelMeta
  elems : List Entity

/-- `get_queryset`: the unfiltered collection of the model. -/
def base_queryset (env : Env) (db : DB) : QuerySet :=
  ⟨env.meta, db.entities.filter (fun e => e.model == env.model)⟩

/-- Equality test used by `queryset.filter(**{field: value})` where
`value` is the raw GET parameter string. -/
def valueEqStr : Value → String → Bool
  | .s v, q => v == q
  | .n v, q => toString v == q

def digitVal (c : Char) : Option Nat :=
  if c.toNat >= 48 && c.toNat <= 57 then some (c.toNat - 48) else none

def parsePkAux : List Char → Nat → Option Nat
  | [], acc => some acc
  | c :: cs, acc =>
    match digitVal c with
    | some d => parsePkAux cs (acc * 10 + d)
    | Option.none => none

/-- Python `int(s)` on a URL segment, as performed by the primary key
coercion of `queryset.get(pk=s)`: the decimal value, or `none` when the
string is not a number (the `ValueError` case). -/
def parsePk (s : String) : Option Nat :=
  match s.data with
  | [] => none
  | l => parsePkAux l 0

/-- `get_object_or_404(Model, **selector)`: the unique matching entity,
`Http404` when none matches, `MultipleObjectsReturned` when several do. -/
def getObjectOr404 (db : DB) (mid : Nat) (sel : Entity → Bool) :
    Except Exc Entity :=
  match db.entities.filter (fun e => e.model == mid && sel e) with
  | [e] => .ok e
  | [] => .error (.http404 "No object matches the given query.")
  | _ => .error .multipleObjects

/-- `get_object_or_404(Model, pk=value)` with a raw string key (an
unparsable key cannot match and surfaces through the same 404 raise). -/
def getByPkStr (db : DB) (mid : Nat) (pkStr : String) : Except Exc Entity :=
  match parsePk pkStr with
  | none => .error (.http404 ("Invalid primary key " ++ pkStr))
  | some n => getObjectOr404 db mid (fun e => e.pk == n)

/-- Membership test of `queryset.filter(**{field: value})` for a scalar
field: the entity carries the field and its value equals the raw
parameter string. -/
def scalarMatches (e : Entity) (field value : String) : Bool :=
  match e.val field with
  | some v => valueEqStr v value
  | Option.none => false

/-- Membership test of `queryset.filter(**{field: reference})`: equality
of the stored reference for a foreign key field, link row membership for
a many-to-many field. -/
def refMatches (db : DB) (fobj : Field) (refPk : Nat) (e : Entity) : Bool :=
  if fobj.m2m then db.links.contains (e.model, e.pk, fobj.name, refPk)
  else
    match e.val fobj.name with
    | some v => v == .n refPk
    | none => false

/-- `apply_filter`: equality filtering for scalar fields, resolution of
the parameter value as the referenced model primary key for reference
fields (`get_object_or_404` raising `Http404` when it does not exist). -/
def apply_filter (db : DB) (qs : QuerySet) (field value : String) :
    Except Exc QuerySet :=
  match qs.meta.fields.find? (fun f => f.name == field) with
  | Option.none => .error .fieldDoesNotExist
  | some fobj =>
    match fobj.rel with
    | Option.none =>
      .ok ⟨qs.meta, qs.elems.filter (fun e => scalarMatches e field value)⟩
    | some target => do
      let reference ← getByPkStr db target value
      pure ⟨qs.meta, qs.elems.filter (refMatches db fobj reference.pk)⟩

/-- `filter_queryset`: fold over the GET parameters, applying
`apply_filter` for every parameter whose name is a real field name of the
queryset model and ignoring all others. -/
def filter_queryset (db : DB) (params : List (String × String))
    (qs : QuerySet) : Except Exc QuerySet :=
  let fieldnames := qs.meta.fields.map (fun f => f.name)
  params.foldlM
    (fun q p =>
      if fieldnames.contains p.1 then apply_filter db q p.1 p.2 else pure q)
    qs

/-! ## Entity and collection resolution -/

/-- The argument `instance_pk_or_entity`: either a raw primary key string
from the URL, or an object passed through from an earlier resolution. -/
inductive EntArg where
  | raw (s : String)
  | value (ev : EVal)

/-- `get_entity`.  The `except` branches of the source format their
message with the undefined name `instance_pk` (the parameter is called
`instance_pk_or_entity`), so both the absent entity case and the
malformed key case raise `NameError` instead of the intended
`TypeError`. -/
def get_entity (env : Env) (h : Hooks) (db : DB)
    (params : List (String × String)) (arg : EntArg) : Except Exc EVal := do
  match arg with
  | .value (.ent e) =>
    if e.model == env.model then
      if h.can_get_entity e then pure (.ent e) else pure .forb
    else
      -- isinstance fails and queryset.get coerces the object as a key
      throw (.typeError "int() argument must be a string or a number")
  | .value .forb =>
    throw (.typeError "int() argument must be a string or a number")
  | .raw s =>
    let qs ← filter_queryset db params (base_queryset env db)
    match parsePk s with
    | Option.none =>
      -- ValueError branch: its message evaluates instance_pk, NameError
      throw (.nameError "global name instance_pk is not defined")
    | some n =>
      match qs.elems.filter (fun e => e.pk == n) with
      | [e] => if h.can_get_entity e then pure (.ent e) else pure .forb
      | [] =>
        -- DoesNotExist branch: same undefined name, NameError
        throw (.nameError "global name instance_pk is not defined")
      | _ => throw .multipleObjects

/-- `get_linked_model`: resolve `link` as a field of the view model,
raising `TypeError` when the field does not exist or is not
many-to-many; returns the identity of `field.rel.to`. -/
def get_linked_model (env : Env) (link : String) : Except Exc Nat :=
  match env.meta.fields.find? (fun f => f.name == link) with
  | Option.none =>
    .error (.typeError
      ("Field " ++ env.meta.name ++ "." ++ link ++ " does not exist."))
  | some f =>
    if !f.m2m then
      .error (.typeError
        ("Field " ++ env.meta.name ++ "." ++ link ++ " is not a m2m field."))
    else .ok (f.rel.getD 0)

/-- `get_linked_queryset`: same field checks against the class of the
passed entity, then the related manager `getattr(entity, link)` as a
queryset over the link rows.  Receiving the forbidden response object
instead of an entity raises `AttributeError` on `entity._meta`. -/
def get_linked_queryset (env : Env) (db : DB) (ev : EVal) (link : String) :
    Except Exc QuerySet :=
  match ev with
  | .forb => .error .attributeError
  | .ent entity =>
    let meta := env.metaOf entity.model
    match meta.fields.find? (fun f => f.name == link) with
    | Option.none =>
      .error (.typeError
        ("Field " ++ meta.name ++ "." ++ link ++ " does not exist."))
    | some f =>
      if !f.m2m then
        .error (.typeError
          ("Field " ++ meta.name ++ "." ++ link ++ " is not a m2m field."))
      else
        let target := f.rel.getD 0
        .ok ⟨env.metaOf target,
          db.entities.filter (fun le =>
            le.model == target &&
              db.links.contains (entity.model, entity.pk, link, le.pk))⟩

/-- `get_collection`: filter the base queryset by the GET parameters,
collapse to a set, and keep the entities `can_get_entity` authorizes. -/
def get_collection (env : Env) (h : Hooks) (db : DB)
    (params : List (String × String)) : Except Exc Reply := do
  let qs ← filter_queryset db params (base_queryset env db)
  pure (.list (qs.elems.dedup.filter h.can_get_entity))

/-- `get_linked_collection`. -/
def get_linked_collection (env : Env) (h : Hooks) (db : DB)
    (params : List (String × String)) (arg : EntArg) (link : String) :
    Except Exc Reply := do
  let ev ← get_entity env h db params arg
  let base ← get_linked_queryset env db ev link
  let qs ← filter_queryset db params base
  match ev with
  | .forb => throw .attributeError
  | .ent entity =>
    pure (.list (qs.elems.dedup.filter
      (fun le => h.can_get_linked_entity entity link le)))

/-- `get_linked_entity`: resolve the owning entity, take its linked
queryset, filter it, look the linked key up (these two `except` branches
format their messages with the defined name `linked_instance_pk`, so
they do raise `TypeError`), then check `can_get_linked_entity`. -/
def get_linked_entity (env : Env) (h : Hooks) (db : DB)
    (params : List (String × String)) (arg : EntArg) (link : String)
    (linkedPk : String) : Except Exc EVal := do
  let ev ← get_entity env h db params arg
  let base ← get_linked_queryset env db ev link
  let qs ← filter_queryset db params base
  match parsePk linkedPk with
  | Option.none =>
    throw (.typeError ("Invalid primary key value for " ++ qs.meta.name ++
      " instance: " ++ linkedPk))
  | some n =>
    match qs.elems.filter (fun e => e.pk == n) with
    | [] =>
      throw (.typeError ("There is no " ++ qs.meta.name ++
        " instance with primary key: " ++ linkedPk))
    | [le] =>
      match ev with
      | .forb => throw .attributeError
      | .ent entity =>
        if h.can_get_linked_entity entity link le then pure (.ent le)
        else pure .forb
    | _ => throw .multipleObjects

/-! ## Mutation operations -/

/-- `get_model_form_fields`: the editable, non primary key entries of
`model._meta.fields` (which excludes many-to-many fields). -/
def get_model_form_fields (env : Env) : List Field :=
  (env.meta.fields.filter (fun f => !f.m2m)).filter
    (fun f => f.editable && !f.primary_key)

/-- `form.save()` of the model form built over `fields` for a new
instance: validation requires every form field be bound in the data;
on success storage assigns the next primary key and persists the
instance with the submitted values for exactly the form fields. -/
def formNewEntity (env : Env) (db : DB) (fields : List Field)
    (kvs : List (String × Value)) : Except Exc (Entity × DB) :=
  if fields.all (fun f => (kvs.lookup f.name).isSome) then
    let e : Entity := ⟨env.model, db.nextPk,
      fields.filterMap (fun f => (kvs.lookup f.name).map (fun v => (f.name, v)))⟩
    .ok (e, ⟨db.entities ++ [e], db.links, db.nextPk + 1⟩)
  else
    .error (.valueError "The form could not be saved because the data did not validate.")

/-- `create_entity`: require a dictionary, consult `can_create_entity`,
build the model form (absent when no field is editable, yielding the
forbidden response), and save; a validation failure returns a 400
response carrying the message. -/
def create_entity (env : Env) (h : Hooks) (db : DB) (data : PyData) :
    Except Exc (Reply × DB) :=
  match data with
  | .other => .error (.valueError "POST data should contain dictionary")
  | .dict kvs =>
    if !h.can_create_entity kvs then pure (.forbidden, db)
    else
      let fields := get_model_form_fields env
      if fields.isEmpty then pure (.forbidden, db)
      else
        match formNewEntity env db fields kvs with
        | .ok (e, db2) => pure (.ent e, db2)
        | .error (.valueError m) => pure (.badRequest m, db)
        | .error err => .error err

/-- `queryset.add(linked)` on the related manager: insert the link row
if it is not already present. -/
def addLink (db : DB) (entity : Entity) (link : String) (linked : Entity) :
    DB :=
  if db.links.contains (entity.model, entity.pk, link, linked.pk) then db
  else ⟨db.entities, db.links ++ [(entity.model, entity.pk, link, linked.pk)],
    db.nextPk⟩

/-- `entity.save()` on an already persisted instance: replace the stored
row with the instance. -/
def saveEntity (db : DB) (entity : Entity) : DB :=
  ⟨db.entities.map (fun e =>
      if e.model == entity.model && e.pk == entity.pk then entity else e),
    db.links, db.nextPk⟩

/-- `queryset.remove(linked)` on the related manager: delete the link
row; neither endpoint entity is touched. -/
def removeLink (db : DB) (entity : Entity) (link : String) (linked : Entity) :
    DB :=
  ⟨db.entities,
    db.links.filter (fun t => t != (entity.model, entity.pk, link, linked.pk)),
    db.nextPk⟩

/-- `create_linked_entity`: resolve the owning entity, the linked model
and the related manager (any `TypeError` is re-raised unchanged), require
a dictionary, look the linked entity up by the submitted field values
(`get_object_or_404`, never creating one), consult
`can_create_linked_entity`, then add the link and re-save the owner.
The function body ends without a return statement, so it produces
Python `None` on success. -/
def create_linked_entity (env : Env) (h : Hooks) (db : DB)
    (params : List (String × String)) (arg : EntArg) (link : String)
    (data : PyData) : Except Exc (Reply × DB) := do
  let ev ← get_entity env h db params arg
  let linkedModel ← get_linked_model env link
  let _qs ← get_linked_queryset env db ev link
  match data with
  | .other => throw (.valueError "POST data should contain dictionary")
  | .dict kvs =>
    let linked ← getObjectOr404 db linkedModel
      (fun e => kvs.all (fun p => e.val p.1 == some p.2))
    match ev with
    | .forb => throw .attributeError
    | .ent entity =>
      if !h.can_create_linked_entity entity link linked then
        pure (.forbidden, db)
      else
        pure (.none, saveEntity (addLink db entity link linked) entity)

/-- `entity.delete()`: remove the row and cascade the link rows that
mention the entity, on the owning side or on the linked side. -/
def removeEntity (env : Env) (db : DB) (entity : Entity) : DB :=
  ⟨db.entities.filter (fun e => !(e.model == entity.model && e.pk == entity.pk)),
    db.links.filter (fun t =>
      !(t.1 == entity.model && t.2.1 == entity.pk) &&
        !(t.2.2.2 == entity.pk &&
          ((env.metaOf t.1).fields.find? (fun f => f.name == t.2.2.1)).any
            (fun f => f.rel == some entity.model))),
    db.nextPk⟩

/-- `delete_entity`: resolve the entity, consult `can_delete_entity`,
delete; no return payload. -/
def delete_entity (env : Env) (h : Hooks) (db : DB)
    (params : List (String × String)) (arg : EntArg) :
    Except Exc (Reply × DB) := do
  let ev ← get_entity env h db params arg
  match ev with
  | .forb =>
    -- the forbidden response flows into entity.delete(), AttributeError
    throw .attributeError
  | .ent entity =>
    if !h.can_delete_entity entity then pure (.forbidden, db)
    else pure (.none, removeEntity env db entity)

/-- `delete_linked_entity`: resolve the owner and the linked entity
(with its authorization check on the way), consult
`can_delete_linked_entity`, then remove the link row only. -/
def delete_linked_entity (env : Env) (h : Hooks) (db : DB)
    (params : List (String × String)) (arg : EntArg) (link : String)
    (linkedPk : String) : Except Exc (Reply × DB) := do
  let ev ← get_entity env h db params arg
  let lev ← get_linked_entity env h db params (.value ev) link linkedPk
  match ev, lev with
  | .ent entity, .ent linked =>
    if !h.can_delete_linked_entity entity link linked then
      pure (.forbidden, db)
    else do
      let _qs ← get_linked_queryset env db ev link
      pure (.none, removeLink db entity link linked)
  | .ent _, .forb =>
    -- the forbidden response flows into queryset.remove, whose instance
    -- check raises TypeError
    throw (.typeError "HttpResponseForbidden instance expected")
  | .forb, _ =>
    -- unreachable: get_linked_entity raised while coercing the response
    throw (.typeError "int() argument must be a string or a number")

/-! ## Method invocation -/

/-- `call_collection_method`: look the name up on the model class;
plain functions (static methods) and bound methods (class methods) are
invoked with the request data, unbound instance methods and missing or
non callable attributes raise `TypeError`. -/
def call_collection_method (env : Env) (name : String) (data : PyData) :
    Except Exc Reply :=
  match classAttr env env.model name with
  | .func m => .ok (.val (m.run data))
  | .boundM m => .ok (.val (m.run data))
  | .unboundM _ => .error (.typeError "Unbound methods are not allowed.")
  | .absent =>
    .error (.typeError (env.meta.name ++ "." ++ name ++ " is not a callable."))

/-- `call_entity_method`: resolve the entity, look the name up on the
instance; plain functions (static methods) raise `TypeError`, bound
methods (instance methods, and also class methods reached through the
instance) are invoked with the request data. -/
def call_entity_method (env : Env) (h : Hooks) (db : DB)
    (params : List (String × String)) (arg : EntArg) (name : String)
    (data : PyData) : Except Exc Reply := do
  let ev ← get_entity env h db params arg
  match ev with
  | .forb =>
    -- getattr on the forbidden response finds no such method
    throw (.typeError ("HttpResponseForbidden." ++ name ++ " is not a callable."))
  | .ent entity =>
    match instanceAttr env entity.model name with
    | .func _ => throw (.typeError "Static methods are not allowed.")
    | .boundM m => pure (.val (m.run data))
    | .unboundM _ => throw (.typeError "Unbound methods are not allowed.")
    | .absent =>
      throw (.typeError ((env.metaOf entity.model).name ++ "." ++ name ++
        " is not a callable."))

def dataStr : PyData → String
  | .dict _ => "dict"
  | .other => "data"

/-- `call_linked_collection_method`: default echo behaviour. -/
def call_linked_collection_method (method : String) (data : PyData) : Reply :=
  .raw (method ++ "(" ++ dataStr data ++ ")")

/-- `call_linked_entity_method`: default echo behaviour. -/
def call_linked_entity_method (method : String) (data : PyData) : Reply :=
  .raw (method ++ "(" ++ dataStr data ++ ")")

/-! ## Response serialisation and the verb handlers -/

def Value.render : Value → String
  | .s v => "\x22" ++ v ++ "\x22"
  | .n v => toString v

/-- `str(entity)` for a model instance without a `describe` capability. -/
def entityStr (e : Entity) : String :=
  "object(" ++ toString e.model ++ ", " ++ toString e.pk ++ ")"

/-- `serialize_for_json` followed by `json.dumps`, specialised to the
reply shapes the dispatcher produces: an entity falls through to its
string form, a list recurses elementwise, a plain value is encodable. -/
def serializeReply : Reply → String
  | .none => "null"
  | .ent e => "\x22" ++ entityStr e ++ "\x22"
  | .list es =>
    "[" ++ String.intercalate ", "
      (es.map (fun e => "\x22" ++ entityStr e ++ "\x22")) ++ "]"
  | .val v => v.render
  | .forbidden => ""
  | .badRequest m => m
  | .raw b => b

structure HttpResp where
  status : Nat
  body : String
deriving DecidableEq, Repr

/-- `reply_to_response`: `None` becomes an empty 204, a prebuilt
`HttpResponse` (forbidden 403, bad request 400, ad hoc 200 body) passes
through unchanged, anything else is serialised into a JSON 200 body. -/
def reply_to_response : Reply → HttpResp
  | .none => ⟨204, ""⟩
  | .forbidden => ⟨403, ""⟩
  | .badRequest m => ⟨400, m⟩
  | .raw b => ⟨200, b⟩
  | r => ⟨200, serializeReply r⟩

/-- The outcome of a verb handler: a response together with the database
after the request, or an uncaught `Http404` raised to the web layer. -/
inductive HandlerResult where
  | resp (r : HttpResp) (db : DB)
  | raise404 (msg : Option String)
deriving DecidableEq, Repr

/-- The shared tail of every verb handler: a normal reply is serialised;
`except TypeError` re-raises `Http404`, with the message only under
`settings.DEBUG`; every other exception (including a `Http404` raised
inside the `try` block) falls to `except Exception` and becomes a 400
response whose body carries the message only under `settings.DEBUG`. -/
def handle (debug : Bool) (db : DB) :
    Except Exc (Reply × DB) → HandlerResult
  | .ok (r, db2) => .resp (reply_to_response r) db2
  | .error (.typeError m) => .raise404 (if debug then some m else none)
  | .error e => .resp ⟨400, if debug then e.excStr else ""⟩ db

/-- The request body before decoding: `json.loads` either produces data
or raises `ValueError`. -/
inductive Body where
  | json (d : PyData)
  | malformed
deriving Repr

namespace RESTView

/-- `RESTView.get`: dispatch on the positional segment count. -/
def get (env : Env) (h : Hooks) (debug : Bool) (db : DB)
    (params : List (String × String)) (args : List String) : HandlerResult :=
  handle debug db (do
    let reply ←
      match args with
      | [] => get_collection env h db params
      | [a] => (get_entity env h db params (.raw a)).map evalToReply
      | [a, b] => get_linked_collection env h db params (.raw a) b
      | [a, b, c] =>
        (get_linked_entity env h db params (.raw a) b c).map evalToReply
      | _ => throw (.http404 "")
    pure (reply, db))

/-- `RESTView.post`: decode the body, dispatch on the segment count; the
two segment case tries `create_linked_entity` and, exactly when that
raises `TypeError`, retries the same segments as `call_entity_method`. -/
def post (env : Env) (h : Hooks) (debug : Bool) (db : DB)
    (params : List (String × String)) (body : Body) (args : List String) :
    HandlerResult :=
  handle debug db (do
    let data ←
      match body with
      | .malformed => throw (.valueError "No JSON object could be decoded")
      | .json d => pure d
    match args with
    | [] => create_entity env h db data
    | [a] => (call_collection_method env a data).map (fun r => (r, db))
    | [a, b] =>
      match create_linked_entity env h db params (.raw a) b data with
      | .ok r => pure r
      | .error (.typeError _) =>
        (call_entity_method env h db params (.raw a) b data).map
          (fun r => (r, db))
      | .error e => throw e
    | [_, _, c] => pure (call_linked_collection_method c data, db)
    | [_, _, _, d4] => pure (call_linked_entity_method d4 data, db)
    | _ => throw (.typeError ""))

/-- `RESTView.delete`: dispatch on the segment count. -/
def delete (env : Env) (h : Hooks) (debug : Bool) (db : DB)
    (params : List (String × String)) (args : List String) : HandlerResult :=
  handle debug db
    (match args with
    | [a] => delete_entity env h db params (.raw a)
    | [a, b, c] => delete_linked_entity env h db params (.raw a) b c
    | _ => throw (.typeError ""))

end RESTView

/-! ## A concrete fixture: widgets with many-to-many tags -/

/-- The Widget model: integer auto primary key, an editable scalar
`name`, and a many-to-many `tags` field targeting the Tag model. -/
def widgetMeta : ModelMeta :=
  ⟨0, "Widget",
    [⟨"id", false, true, Option.none, false⟩,
     ⟨"name", true, false, Option.none, false⟩,
     ⟨"tags", false, false, some 1, true⟩]⟩

/-- The Tag model: integer auto primary key and an editable `label`. -/
def tagMeta : ModelMeta :=
  ⟨1, "Tag",
    [⟨"id", false, true, Option.none, false⟩,
     ⟨"label", true, false, Option.none, false⟩]⟩

/-- An instance method `frob` on Widget returning 42. -/
def frobMethod : Method := ⟨.instM, fun _ => .n 42⟩

/-- A class method `totalCount` on Widget returning 5. -/
def countMethod : Method := ⟨.classM, fun _ => .n 5⟩

/-- A static method `ping` on Widget returning 1. -/
def pingMethod : Method := ⟨.staticM, fun _ => .n 1⟩

def widgetEnv : Env :=
  ⟨[widgetMeta, tagMeta],
    [(0, "frob", frobMethod), (0, "totalCount", countMethod),
     (0, "ping", pingMethod)],
    0⟩

def widget7 : Entity := ⟨0, 7, [("name", .s "w7")]⟩

def tag3 : Entity := ⟨1, 3, [("label", .s "blue")]⟩

/-- Widget 7 and tag 3 exist and are linked through `tags`. -/
def db0 : DB := ⟨[widget7, tag3], [(0, 7, "tags", 3)], 100⟩

/-- The world after the first `DELETE /widgets/7/tags/3`: the link row is
gone, both entities remain. -/
def db1 : DB := ⟨[widget7, tag3], [], 100⟩

/-! ## Helper lemmas -/

@[simp]
theorem exc_bind_ok {α β : Type} (a : α) (f : α → Except Exc β) :
    (do let x ← (Except.ok a : Except Exc α); f x) = f a := rfl

@[simp]
theorem exc_bind_error {α β : Type} (e : Exc) (f : α → Except Exc β) :
    (do let x ← (Except.error e : Except Exc α); f x) = Except.error e := rfl

@[simp]
theorem exc_pure {α : Type} (a : α) :
    (pure a : Except Exc α) = Except.ok a := rfl

@[simp]
theorem exc_throw {α : Type} (e : Exc) :
    (throw e : Except Exc α) = Except.error e := rfl

@[simp]
theorem exc_map_ok {α β : Type} (a : α) (f : α → β) :
    (Except.ok a : Except Exc α).map f = Except.ok (f a) := rfl

@[simp]
theorem exc_map_error {α β : Type} (e : Exc) (f : α → β) :
    (Except.error e : Except Exc α).map f = Except.error e := rfl

@[simp]
theorem filter_queryset_nil (db : DB) (qs : QuerySet) :
    filter_queryset db [] qs = Except.ok qs := rfl

/-- A fold of filtering steps that each preserve the model and shrink the
element list preserves the model and shrinks the element list. -/
theorem foldlM_filter_invariant
    (f : QuerySet → (String × String) → Except Exc QuerySet)
    (hf : ∀ q p q', f q p = Except.ok q' →
      q'.meta = q.meta ∧ q'.elems ⊆ q.elems) :
    ∀ (ps : List (String × String)) (qs qs' : QuerySet),
      ps.foldlM f qs = Except.ok qs' →
      qs'.meta = qs.meta ∧ qs'.elems ⊆ qs.elems := by
  intro ps
  induction ps with
  | nil =>
    intro qs qs' h
    simp [List.foldlM] at h
    subst h
    exact ⟨rfl, fun _ hx => hx⟩
  | cons p ps ih =>
    intro qs qs' h
    simp only [List.foldlM] at h
    cases hfq : f qs p with
    | error e => rw [hfq] at h; simp at h
    | ok q1 =>
      rw [hfq] at h
      simp only [exc_bind_ok] at h
      have h1 := hf qs p q1 hfq
      have h2 := ih q1 qs' h
      exact ⟨h2.1.trans h1.1, h2.2.trans h1.2⟩

theorem apply_filter_invariant (db : DB) (qs : QuerySet) (f v : String)
    (qs' : QuerySet) (h : apply_filter db qs f v = Except.ok qs') :
    qs'.meta = qs.meta ∧ qs'.elems ⊆ qs.elems := by
  unfold apply_filter at h
  cases hfind : qs.meta.fields.find? (fun x => x.name == f) with
  | none =>
    simp only [hfind] at h
    exact Except.noConfusion h
  | some fobj =>
    simp only [hfind] at h
    cases hrel : fobj.rel with
    | none =>
      simp only [hrel, Except.ok.injEq] at h
      subst h
      exact ⟨rfl, fun x hx => (List.mem_filter.mp hx).1⟩
    | some target =>
      simp only [hrel] at h
      cases hget : getByPkStr db target v with
      | error e =>
        simp only [hget, exc_bind_error] at h
        exact Except.noConfusion h
      | ok reference =>
        simp only [hget, exc_bind_ok, exc_pure, Except.ok.injEq] at h
        subst h
        exact ⟨rfl, fun x hx => (List.mem_filter.mp hx).1⟩

theorem filter_queryset_invariant (db : DB) (params : List (String × String))
    (qs qs' : QuerySet) (h : filter_queryset db params qs = Except.ok qs') :
    qs'.meta = qs.meta ∧ qs'.elems ⊆ qs.elems := by
  unfold filter_queryset at h
  refine foldlM_filter_invariant _ ?_ params qs qs' h
  intro q p q' hq
  by_cases hc : (qs.meta.fields.map (fun x => x.name)).contains p.1
  · rw [if_pos hc] at hq
    exact apply_filter_invariant db q p.1 p.2 q' hq
  · rw [if_neg hc] at hq
    simp only [exc_pure, Except.ok.injEq] at hq
    subst hq
    exact ⟨rfl, fun _ hx => hx⟩

def Exc.isTypeError : Exc → Bool
  | .typeError _ => true
  | _ => false

theorem getObjectOr404_no_typeError (db : DB) (mid : Nat)
    (sel : Entity → Bool) (e : Exc)
    (h : getObjectOr404 db mid sel = Except.error e) :
    e.isTypeError = false := by
  unfold getObjectOr404 at h
  rcases hm : db.entities.filter (fun x => x.model == mid && sel x) with _ | ⟨a, _ | ⟨b, l⟩⟩ <;>
      simp only [hm] at h
  · injection h with h2
    subst h2
    rfl
  · exact Except.noConfusion h
  · injection h with h2
    subst h2
    rfl

theorem getByPkStr_no_typeError (db : DB) (mid : Nat) (s : String) (e : Exc)
    (h : getByPkStr db mid s = Except.error e) : e.isTypeError = false := by
  unfold getByPkStr at h
  cases hp : parsePk s with
  | none =>
    simp only [hp, Except.error.injEq] at h
    subst h
    rfl
  | some n =>
    simp only [hp] at h
    exact getObjectOr404_no_typeError _ _ _ _ h

theorem apply_filter_no_typeError (db : DB) (qs : QuerySet) (f v : String)
    (e : Exc) (h : apply_filter db qs f v = Except.error e) :
    e.isTypeError = false := by
  unfold apply_filter at h
  cases hfind : qs.meta.fields.find? (fun x => x.name == f) with
  | none =>
    simp only [hfind, Except.error.injEq] at h
    subst h
    rfl
  | some fobj =>
    simp only [hfind] at h
    cases hrel : fobj.rel with
    | none =>
      simp only [hrel] at h
      exact Except.noConfusion h
    | some target =>
      simp only [hrel] at h
      cases hget : getByPkStr db target v with
      | error e2 =>
        simp only [hget, exc_bind_error, Except.error.injEq] at h
        subst h
        exact getByPkStr_no_typeError _ _ _ _ hget
      | ok reference =>
        simp only [hget, exc_bind_ok, exc_pure] at h
        exact Except.noConfusion h

/-- A fold of steps that never raise `TypeError` never raises
`TypeError`. -/
theorem foldlM_no_typeError
    (f : QuerySet → (String × String) → Except Exc QuerySet)
    (hf : ∀ q p e, f q p = Except.error e → e.isTypeError = false) :
    ∀ (ps : List (String × String)) (qs : QuerySet) (e : Exc),
      ps.foldlM f qs = Except.error e → e.isTypeError = false := by
  intro ps
  induction ps with
  | nil => intro qs e h; simp [List.foldlM] at h
  | cons p ps ih =>
    intro qs e h
    simp only [List.foldlM] at h
    cases hfq : f qs p with
    | error e2 =>
      rw [hfq] at h
      simp only [exc_bind_error, Except.error.injEq] at h
      subst h
      exact hf qs p _ hfq
    | ok q1 =>
      rw [hfq] at h
      simp only [exc_bind_ok] at h
      exact ih q1 e h

theorem filter_queryset_no_typeError (db : DB)
    (params : List (String × String)) (qs : QuerySet) (e : Exc)
    (h : filter_queryset db params qs = Except.error e) :
    e.isTypeError = false := by
  unfold filter_queryset at h
  refine foldlM_no_typeError _ ?_ params qs e h
  intro q p e2 hq
  by_cases hc : (qs.meta.fields.map (fun x => x.name)).contains p.1
  · rw [if_pos hc] at hq
    exact apply_filter_no_typeError _ _ _ _ _ hq
  · rw [if_neg hc] at hq
    simp at hq

/-- `get_entity` on a raw key never raises `TypeError`: its own failure
branches raise `NameError` (the undefined `instance_pk`) or
`MultipleObjectsReturned`, and filtering raises only 404 class errors. -/
theorem get_entity_raw_no_typeError (env : Env) (h : Hooks) (db : DB)
    (params : List (String × String)) (s : String) (e : Exc)
    (hge : get_entity env h db params (.raw s) = Except.error e) :
    e.isTypeError = false := by
  unfold get_entity at hge
  cases hq : filter_queryset db params (base_queryset env db) with
  | error e1 =>
    simp only [hq, exc_bind_error, Except.error.injEq] at hge
    subst hge
    exact filter_queryset_no_typeError _ _ _ _ hq
  | ok qs =>
    simp only [hq, exc_bind_ok] at hge
    cases hp : parsePk s with
    | none =>
      simp only [hp, exc_throw, Except.error.injEq] at hge
      subst hge
      rfl
    | some n =>
      simp only [hp] at hge
      rcases hf : qs.elems.filter (fun x => x.pk == n) with _ | ⟨a, _ | ⟨b, l⟩⟩ <;>
          simp only [hf] at hge
      · injection hge with h2
        subst h2
        rfl
      · by_cases hcg : h.can_get_entity a = true <;> simp [hcg] at hge
      · injection hge with h2
        subst h2
        rfl

/-- A successfully resolved entity came through the filtered base
queryset, so it belongs to the view model. -/
theorem get_entity_raw_ok_model (env : Env) (h : Hooks) (db : DB)
    (params : List (String × String)) (s : String) (e : Entity)
    (hge : get_entity env h db params (.raw s) = Except.ok (.ent e)) :
    e.model = env.model := by
  unfold get_entity at hge
  cases hq : filter_queryset db params (base_queryset env db) with
  | error e1 =>
    simp only [hq, exc_bind_error] at hge
    exact Except.noConfusion hge
  | ok qs =>
    simp only [hq, exc_bind_ok] at hge
    cases hp : parsePk s with
    | none =>
      simp only [hp, exc_throw] at hge
      exact Except.noConfusion hge
    | some n =>
      simp only [hp] at hge
      rcases hf : qs.elems.filter (fun x => x.pk == n) with _ | ⟨a, _ | ⟨b, l⟩⟩ <;>
          simp only [hf] at hge
      · exact Except.noConfusion hge
      · have ha : a ∈ qs.elems := by
          have : a ∈ qs.elems.filter (fun x => x.pk == n) := by
            rw [hf]; exact List.mem_singleton_self a
          exact (List.mem_filter.mp this).1
        have hsub := (filter_queryset_invariant db params _ qs hq).2
        have hbase : a ∈ (base_queryset env db).elems := hsub ha
        have hmodel : a.model == env.model := by
          have := List.mem_filter.mp hbase
          exact this.2
        by_cases hcg : h.can_get_entity a = true
        · simp only [hcg, if_true, exc_pure, Except.ok.injEq, EVal.ent.injEq] at hge
          subst hge
          exact beq_iff_eq.mp hmodel
        · simp only [eq_false_of_ne_true hcg, if_false, exc_pure] at hge
          exact absurd hge (by simp)
      · exact Except.noConfusion hge

/-- Resolution of an already found, authorized entity. -/
theorem get_entity_raw_found (env : Env) (h : Hooks) (db : DB)
    (params : List (String × String)) (s : String) (n : Nat) (e : Entity)
    (qs : QuerySet)
    (hq : filter_queryset db params (base_queryset env db) = Except.ok qs)
    (hp : parsePk s = some n)
    (he : qs.elems.filter (fun x => x.pk == n) = [e])
    (hg : h.can_get_entity e = true) :
    get_entity env h db params (.raw s) = Except.ok (.ent e) := by
  unfold get_entity
  simp only [hq, exc_bind_ok, hp, he, hg, if_true, exc_pure]

/-- The spec side condition of the POST two segment fallback: the link
name is not a field of the dispatched model, or is a field that is not
many-to-many. -/
def fieldNotFoundOrNotLink (env : Env) (link : String) : Bool :=
  match env.meta.fields.find? (fun f => f.name == link) with
  | Option.none => true
  | some f => !f.m2m

theorem get_linked_model_typeError_of_bad (env : Env) (link : String)
    (hb : fieldNotFoundOrNotLink env link = true) :
    ∃ m, get_linked_model env link = Except.error (.typeError m) := by
  unfold fieldNotFoundOrNotLink at hb
  cases hfind : env.meta.fields.find? (fun f => f.name == link) with
  | none =>
    refine ⟨"Field " ++ env.meta.name ++ "." ++ link ++ " does not exist.", ?_⟩
    unfold get_linked_model
    simp [hfind]
  | some f =>
    simp only [hfind] at hb
    refine ⟨"Field " ++ env.meta.name ++ "." ++ link ++ " is not a m2m field.", ?_⟩
    unfold get_linked_model
    simp [hfind, hb]

theorem get_linked_model_ok_of_good (env : Env) (link : String)
    (hb : fieldNotFoundOrNotLink env link = false) :
    ∃ f, env.meta.fields.find? (fun x => x.name == link) = some f ∧
      f.m2m = true ∧
      get_linked_model env link = Except.ok (f.rel.getD 0) := by
  unfold fieldNotFoundOrNotLink at hb
  cases hfind : env.meta.fields.find? (fun f => f.name == link) with
  | none => simp [hfind] at hb
  | some f =>
    simp only [hfind] at hb
    have hm2m : f.m2m = true := by
      cases hv : f.m2m
      · rw [hv] at hb; simp at hb
      · rfl
    refine ⟨f, rfl, hm2m, ?_⟩
    unfold get_linked_model
    simp [hfind, hm2m]

theorem get_linked_queryset_ent_ok (env : Env) (db : DB) (e : Entity)
    (link : String) (f : Field)
    (hf : (env.metaOf e.model).fields.find? (fun x => x.name == link) = some f)
    (hm2m : f.m2m = true) :
    get_linked_queryset env db (.ent e) link =
      Except.ok ⟨env.metaOf (f.rel.getD 0),
        db.entities.filter (fun le =>
          le.model == f.rel.getD 0 &&
            db.links.contains (e.model, e.pk, link, le.pk))⟩ := by
  unfold get_linked_queryset
  simp [hf, hm2m]

/-- Core of the POST two segment disambiguation: `create_linked_entity`
on two raw URL segments raises `TypeError` exactly when the owning
entity resolution itself returned (so did not raise) and the link name
fails the field-exists-and-is-many-to-many check. -/
theorem create_linked_typeError_iff (env : Env) (h : Hooks) (db : DB)
    (params : List (String × String)) (a link : String) (data : PyData) :
    (∃ m, create_linked_entity env h db params (.raw a) link data =
        Except.error (.typeError m)) ↔
      ((∃ ev, get_entity env h db params (.raw a) = Except.ok ev) ∧
        fieldNotFoundOrNotLink env link = true) := by
  cases hge : get_entity env h db params (.raw a) with
  | error e =>
    have hne := get_entity_raw_no_typeError env h db params a e hge
    unfold create_linked_entity
    simp only [hge, exc_bind_error]
    constructor
    · rintro ⟨m, hm⟩
      injection hm with h2
      rw [h2] at hne
      exact absurd hne (by simp [Exc.isTypeError])
    · rintro ⟨⟨ev, hev⟩, _⟩
      exact absurd hev (by simp)
  | ok ev =>
    unfold create_linked_entity
    simp only [hge, exc_bind_ok]
    cases hfb : fieldNotFoundOrNotLink env link with
    | true =>
      obtain ⟨m, hm⟩ := get_linked_model_typeError_of_bad env link hfb
      simp only [hm, exc_bind_error]
      exact ⟨fun _ => ⟨⟨ev, rfl⟩, by trivial⟩, fun _ => ⟨m, rfl⟩⟩
    | false =>
      obtain ⟨f, hfind, hm2m, hok⟩ := get_linked_model_ok_of_good env link hfb
      simp only [hok, exc_bind_ok]
      cases ev with
      | forb =>
        have : get_linked_queryset env db .forb link =
            Except.error .attributeError := rfl
        simp only [this, exc_bind_error]
        constructor
        · rintro ⟨m, hm⟩
          exact absurd hm (by simp)
        · rintro ⟨_, hbad⟩
          exact absurd hbad (by simp)
      | ent e =>
        have hmodel : e.model = env.model :=
          get_entity_raw_ok_model env h db params a e hge
        have hfind2 : (env.metaOf e.model).fields.find?
            (fun x => x.name == link) = some f := by
          rw [hmodel]; exact hfind
        rw [get_linked_queryset_ent_ok env db e link f hfind2 hm2m]
        simp only [exc_bind_ok]
        constructor
        · rintro ⟨m, hm⟩
          exfalso
          cases data with
          | other => simp at hm
          | dict kvs =>
            cases hgo : getObjectOr404 db (f.rel.getD 0)
                (fun x => kvs.all (fun p => x.val p.1 == some p.2)) with
            | error e2 =>
              have hne := getObjectOr404_no_typeError _ _ _ _ hgo
              simp only [hgo, exc_bind_error, Except.error.injEq] at hm
              rw [hm] at hne
              exact absurd hne (by simp [Exc.isTypeError])
            | ok linked =>
              simp only [hgo, exc_bind_ok] at hm
              by_cases hcl : h.can_create_linked_entity e link linked = true <;>
                simp [hcl] at hm
        · rintro ⟨_, hbad⟩
          exact absurd hbad (by simp)

@[simp]
theorem reply_to_response_none : reply_to_response .none = ⟨204, ""⟩ := rfl

@[simp]
theorem reply_to_response_forbidden : reply_to_response .forbidden = ⟨403, ""⟩ := rfl

@[simp]
theorem reply_to_response_badRequest (m : String) :
    reply_to_response (.badRequest m) = ⟨400, m⟩ := rfl

@[simp]
theorem reply_to_response_raw (b : String) :
    reply_to_response (.raw b) = ⟨200, b⟩ := rfl

@[simp]
theorem reply_to_response_ent (e : Entity) :
    reply_to_response (.ent e) = ⟨200, serializeReply (.ent e)⟩ := rfl

@[simp]
theorem reply_to_response_list (es : List Entity) :
    reply_to_response (.list es) = ⟨200, serializeReply (.list es)⟩ := rfl

@[simp]
theorem reply_to_response_val (v : Value) :
    reply_to_response (.val v) = ⟨200, v.render⟩ := rfl

@[simp]
theorem handle_ok (debug : Bool) (db db2 : DB) (r : Reply) :
    handle debug db (Except.ok (r, db2)) = .resp (reply_to_response r) db2 := rfl

@[simp]
theorem handle_typeError (debug : Bool) (db : DB) (m : String) :
    handle debug db (Except.error (.typeError m)) =
      .raise404 (if debug then some m else none) := rfl

@[simp]
theorem handle_nameError (debug : Bool) (db : DB) (m : String) :
    handle debug db (Except.error (.nameError m)) =
      .resp ⟨400, if debug then m else ""⟩ db := rfl

@[simp]
theorem handle_valueError (debug : Bool) (db : DB) (m : String) :
    handle debug db (Except.error (.valueError m)) =
      .resp ⟨400, if debug then m else ""⟩ db := rfl

@[simp]
theorem handle_http404 (debug : Bool) (db : DB) (m : String) :
    handle debug db (Except.error (.http404 m)) =
      .resp ⟨400, if debug then m else ""⟩ db := rfl

/-- A removed link row is no longer present. -/
theorem contains_filter_ne_self (l : List (Nat × Nat × String × Nat))
    (x : Nat × Nat × String × Nat) :
    (l.filter (fun t => t != x)).contains x = false := by
  by_cases hc : (l.filter (fun t => t != x)).contains x = true
  · exfalso
    have hx : x ∈ l.filter (fun t => t != x) := List.elem_iff.mp hc
    have := (List.mem_filter.mp hx).2
    simp at this
  · exact Bool.eq_false_iff.mpr hc

/-- `firstSome` of a list of `none` is `none`. -/
theorem firstSome_all_none {α : Type} (l : List (Option α))
    (h : ∀ o ∈ l, o = none) : firstSome l = none := by
  induction l with
  | nil => rfl
  | cons o os ih =>
    have ho : o = none := h o (by simp)
    subst ho
    exact ih (fun x hx => h x (by simp [hx]))

/-- C5: the registry resolves by exact match first, then walks the
immediate bases in declaration order taking the first non absent result;
in particular an unregistered model resolves exactly as its first
resolving base does, and resolves to absent when no base resolves. -/
theorem c5_registry_inherited_resolution :
    (∀ (reg : List (Nat × Nat)) (i : Nat) (bs : List PyType) (v : Nat),
      reg.lookup i = some v → getViewByModel reg (.mk i bs) = some v) ∧
    (∀ (reg : List (Nat × Nat)) (i : Nat) (bs : List PyType),
      reg.lookup i = none →
      getViewByModel reg (.mk i bs) =
        firstSome (bs.map (getViewByModel reg))) ∧
    (∀ (reg : List (Nat × Nat)) (i : Nat) (pre post : List PyType)
        (B : PyType),
      reg.lookup i = none →
      (∀ b ∈ pre, getViewByModel reg b = none) →
      (getViewByModel reg B).isSome →
      getViewByModel reg (.mk i (pre ++ B :: post)) = getViewByModel reg B) ∧
    (∀ (reg : List (Nat × Nat)) (i : Nat) (bs : List PyType),
      reg.lookup i = none →
      (∀ b ∈ bs, getViewByModel reg b = none) →
      getViewByModel reg (.mk i bs) = none) := by
  refine ⟨?_, ?_, ?_, ?_⟩
  · intro reg i bs v hv
    rw [getViewByModel_mk, hv]
  · intro reg i bs hno
    rw [getViewByModel_mk, hno]
  · intro reg i pre post B hno hpre hB
    rw [getViewByModel_mk, hno]
    simp only [List.map_append, List.map_cons]
    exact firstSome_append_some _ _ _
      (fun x hx => by
        obtain ⟨b, hb, rfl⟩ := List.mem_map.mp hx
        exact hpre b hb) hB
  · intro reg i bs hno hall
    rw [getViewByModel_mk, hno]
    exact firstSome_all_none _ (fun o ho => by
      obtain ⟨b, hb, rfl⟩ := List.mem_map.mp ho
      exact hall b hb)

/-- Witness for C5 at a concrete registry: model 1 is unregistered, its
first base (2) resolves to nothing, its second base (0) is registered
with view 10, so model 1 resolves exactly as base 0 does. -/
theorem c5_witness :
    getViewByModel [(0, 10)] (.mk 1 [.mk 2 [], .mk 0 []]) =
      getViewByModel [(0, 10)] (.mk 0 []) :=
  c5_registry_inherited_resolution.2.2.1 [(0, 10)] 1 [.mk 2 []] [] (.mk 0 [])
    (by rfl) (by intro b hb; simp at hb; subst hb; rfl) (by rfl)

/-- C4: with `can_get_entity` overridden to always return false, a GET
addressing an existing entity of the model yields the forbidden 403
response — never a 404 raise and never a 200 — returned as a plain value
with no further processing (the database is untouched). -/
theorem c4_forbidden_get (env : Env) (h : Hooks) (debug : Bool) (db : DB)
    (s : String) (n : Nat) (e : Entity)
    (hcg : ∀ x, h.can_get_entity x = false)
    (hp : parsePk s = some n)
    (he : (db.entities.filter (fun x => x.model == env.model)).filter
        (fun x => x.pk == n) = [e]) :
    RESTView.get env h debug db [] [s] = .resp ⟨403, ""⟩ db := by
  have hge : get_entity env h db [] (.raw s) = Except.ok .forb := by
    unfold get_entity
    simp [filter_queryset_nil, exc_bind_ok, hp, base_queryset, he, hcg e]
  unfold RESTView.get
  simp [hge, evalToReply]

/-- Witness for C4: widget 7 exists in `db0`, yet GET `/widgets/7` under
an always false `can_get_entity` yields 403. -/
theorem c4_witness :
    RESTView.get widgetEnv
      (Hooks.ofBase (fun _ => false) (fun _ _ _ => true) (fun _ => true)
        (fun _ _ _ => true)) true db0 [] ["7"] = .resp ⟨403, ""⟩ db0 :=
  c4_forbidden_get widgetEnv _ true db0 "7" 7 widget7 (fun _ => rfl) rfl rfl

/-- C10: the 0 segment GET returns exactly the entities of the filtered
queryset that `can_get_entity` authorizes; unauthorized entities are
silently omitted from the 200 listing rather than producing a 403. -/
theorem c10_collection_filters_unauthorized (env : Env) (h : Hooks)
    (debug : Bool) (db : DB) (params : List (String × String))
    (qs' : QuerySet)
    (hq : filter_queryset db params (base_queryset env db) = Except.ok qs') :
    ∃ l, get_collection env h db params = Except.ok (.list l) ∧
      (∀ e, e ∈ l ↔ e ∈ qs'.elems ∧ h.can_get_entity e = true) ∧
      RESTView.get env h debug db params [] =
        .resp ⟨200, serializeReply (.list l)⟩ db := by
  refine ⟨qs'.elems.dedup.filter h.can_get_entity, ?_, ?_, ?_⟩
  · unfold get_collection
    simp [hq]
  · intro e
    simp [List.mem_filter, List.mem_dedup]
  · have hcol : get_collection env h db params =
        Except.ok (.list (qs'.elems.dedup.filter h.can_get_entity)) := by
      unfold get_collection
      simp [hq]
    unfold RESTView.get
    simp [hcol]

/-- Witness for C10: in `db0` under a hook authorizing only tags, the
widget listing is the empty 200 list even though widget 7 exists. -/
theorem c10_witness :
    ∃ l, get_collection widgetEnv
        (Hooks.ofBase (fun e => e.model == 1) (fun _ _ _ => true)
          (fun _ => true) (fun _ _ _ => true)) db0 [] = Except.ok (.list l) ∧
      (∀ e, e ∈ l ↔ e ∈ (base_queryset widgetEnv db0).elems ∧
        (e.model == 1) = true) ∧
      RESTView.get widgetEnv
        (Hooks.ofBase (fun e => e.model == 1) (fun _ _ _ => true)
          (fun _ => true) (fun _ _ _ => true)) true db0 [] [] =
        .resp ⟨200, serializeReply (.list l)⟩ db0 :=
  c10_collection_filters_unauthorized widgetEnv _ true db0 []
    (base_queryset widgetEnv db0) (by rfl)

@[simp]
theorem exc_bind_pure {α : Type} (x : Except Exc α) :
    (do let a ← x; pure a) = x := by
  cases x <;> rfl

/-- Dropping the skipped elements of a guarded fold does not change its
result. -/
theorem foldlM_skip_eq_filter
    (g : QuerySet → (String × String) → Except Exc QuerySet)
    (keep : (String × String) → Bool) :
    ∀ (ps : List (String × String)) (qs : QuerySet),
      ps.foldlM (fun q p => if keep p then g q p else pure q) qs =
        (ps.filter keep).foldlM
          (fun q p => if keep p then g q p else pure q) qs := by
  intro ps
  induction ps with
  | nil => intro qs; rfl
  | cons p ps ih =>
    intro qs
    cases hk : keep p with
    | true =>
      simp only [List.foldlM, List.filter_cons, hk, if_true]
      cases hg : g qs p with
      | error e => simp [hg]
      | ok q1 =>
        simp only [hg, exc_bind_ok]
        exact ih q1
    | false =>
      simp only [List.foldlM, List.filter_cons, hk, if_false, exc_pure,
        exc_bind_ok]
      exact ih qs

theorem find?_name_contains (fields : List Field) (F : String) (fobj : Field)
    (hfind : fields.find? (fun f => f.name == F) = some fobj) :
    (fields.map (fun f => f.name)).contains F = true := by
  have hmem : fobj ∈ fields := List.mem_of_find?_eq_some hfind
  have hpred := List.find?_some hfind
  have hFmem : F ∈ fields.map (fun f => f.name) :=
    List.mem_map.mpr ⟨fobj, hmem, beq_iff_eq.mp hpred⟩
  exact List.elem_iff.mpr hFmem

/-- A single recognised parameter makes `filter_queryset` a single
`apply_filter` step. -/
theorem filter_queryset_single (db : DB) (qs : QuerySet) (F V : String)
    (fobj : Field)
    (hfind : qs.meta.fields.find? (fun f => f.name == F) = some fobj) :
    filter_queryset db [(F, V)] qs = apply_filter db qs F V := by
  unfold filter_queryset
  simp only [List.foldlM, find?_name_contains qs.meta.fields F fobj hfind,
    if_true]
  cases h : apply_filter db qs F V with
  | error e => simp [h]
  | ok q1 => simp [h]

/-- C6: for a parameter naming a real field, filtering yields exactly
the subset of the collection whose field equals the value (scalar
fields) or references the resolved foreign entity (reference fields),
and parameters that name no real field never alter the result. -/
theorem c6_filtered_collection (db : DB) (qs : QuerySet) :
    (∀ params, filter_queryset db params qs =
      filter_queryset db
        (params.filter (fun p =>
          (qs.meta.fields.map (fun f => f.name)).contains p.1)) qs) ∧
    (∀ F V fobj, qs.meta.fields.find? (fun f => f.name == F) = some fobj →
      fobj.rel = Option.none →
      ∃ qs2, filter_queryset db [(F, V)] qs = Except.ok qs2 ∧
        qs2.meta = qs.meta ∧
        ∀ e, e ∈ qs2.elems ↔ e ∈ qs.elems ∧ scalarMatches e F V = true) ∧
    (∀ F V fobj target reference,
      qs.meta.fields.find? (fun f => f.name == F) = some fobj →
      fobj.rel = some target →
      getByPkStr db target V = Except.ok reference →
      ∃ qs2, filter_queryset db [(F, V)] qs = Except.ok qs2 ∧
        qs2.meta = qs.meta ∧
        ∀ e, e ∈ qs2.elems ↔ e ∈ qs.elems ∧
          refMatches db fobj reference.pk e = true) := by
  refine ⟨?_, ?_, ?_⟩
  · intro params
    unfold filter_queryset
    exact foldlM_skip_eq_filter
      (fun q p => apply_filter db q p.1 p.2)
      (fun p => (qs.meta.fields.map (fun f => f.name)).contains p.1)
      params qs
  · intro F V fobj hfind hrel
    refine ⟨⟨qs.meta, qs.elems.filter (fun e => scalarMatches e F V)⟩, ?_, rfl, ?_⟩
    · rw [filter_queryset_single db qs F V fobj hfind]
      unfold apply_filter
      simp [hfind, hrel]
    · intro e
      simp [List.mem_filter]
  · intro F V fobj target reference hfind hrel href
    refine ⟨⟨qs.meta,
      qs.elems.filter (refMatches db fobj reference.pk)⟩, ?_, rfl, ?_⟩
    · rw [filter_queryset_single db qs F V fobj hfind]
      unfold apply_filter
      simp [hfind, hrel, href]
    · intro e
      simp [List.mem_filter]

/-- Witness for C6 at a concrete collection: filtering widgets by
`name=w7` keeps exactly widget 7. -/
theorem c6_witness :
    ∃ qs2, filter_queryset db0 [("name", "w7")] (base_queryset widgetEnv db0) =
        Except.ok qs2 ∧
      qs2.meta = (base_queryset widgetEnv db0).meta ∧
      ∀ e, e ∈ qs2.elems ↔ e ∈ (base_queryset widgetEnv db0).elems ∧
        scalarMatches e "name" "w7" = true :=
  (c6_filtered_collection db0 (base_queryset widgetEnv db0)).2.1 "name" "w7"
    ⟨"name", true, false, Option.none, false⟩ (by rfl) rfl

/-- C8 counterexample: `totalCount` is a class method — bound to the
class, not an instance method — yet `call_entity_method` on widget 7
invokes it successfully, because the source only checks
`im_self is not None`, which holds for class methods reached through an
instance.  This refutes the claim that `callEntityMethod` requires a
bound *instance* method. -/
theorem c8_counterexample :
    countMethod.kind = .classM ∧
    call_entity_method widgetEnv defaultHooks db0 [] (.raw "7") "totalCount"
      (.dict []) = Except.ok (.val (.n 5)) :=
  ⟨rfl, rfl⟩

/-- C8 amended: `call_collection_method` looks the name up on the model
class and invokes plain functions (static methods) and class bound
methods with the request data, raising the MethodNotAllowed class
`TypeError` for unbound instance methods and for missing attributes;
`call_entity_method` looks the name up on the resolved instance and
invokes any *bound* method — instance methods and also class methods,
which are bound to the class when reached through the instance — while
static methods and missing attributes raise the same `TypeError`
class. -/
theorem c8_method_classification (env : Env) (name : String) (data : PyData) :
    (env.methodOf env.model name = Option.none →
      call_collection_method env name data =
        Except.error (.typeError
          (env.meta.name ++ "." ++ name ++ " is not a callable."))) ∧
    (∀ m, env.methodOf env.model name = some m →
      call_collection_method env name data =
        match m.kind with
        | .staticM => Except.ok (.val (m.run data))
        | .classM => Except.ok (.val (m.run data))
        | .instM =>
          Except.error (.typeError "Unbound methods are not allowed.")) ∧
    (∀ (h : Hooks) (db : DB) (params : List (String × String)) (a : String)
        (e : Entity),
      get_entity env h db params (.raw a) = Except.ok (.ent e) →
      ((env.methodOf e.model name = Option.none →
        call_entity_method env h db params (.raw a) name data =
          Except.error (.typeError
            ((env.metaOf e.model).name ++ "." ++ name ++
              " is not a callable."))) ∧
      (∀ m, env.methodOf e.model name = some m →
        call_entity_method env h db params (.raw a) name data =
          match m.kind with
          | .staticM =>
            Except.error (.typeError "Static methods are not allowed.")
          | .classM => Except.ok (.val (m.run data))
          | .instM => Except.ok (.val (m.run data))))) := by
  refine ⟨?_, ?_, ?_⟩
  · intro hnone
    unfold call_collection_method classAttr
    simp [hnone]
  · intro m hm
    unfold call_collection_method classAttr
    cases hk : m.kind <;> simp [hm, hk]
  · intro h db params a e hge
    constructor
    · intro hnone
      unfold call_entity_method instanceAttr
      simp [hge, hnone]
    · intro m hm
      unfold call_entity_method instanceAttr
      cases hk : m.kind <;> simp [hge, hm, hk]

/-- Witness for C8 amended: `ping` is a static method on Widget, so
invoking it through the entity route fails with the static method
`TypeError`. -/
theorem c8_witness :
    call_entity_method widgetEnv defaultHooks db0 [] (.raw "7") "ping"
      (.dict []) =
      Except.error (.typeError "Static methods are not allowed.") :=
  (c8_method_classification widgetEnv "ping" (.dict [])).2.2 defaultHooks db0
    [] "7" widget7 (by rfl) |>.2 pingMethod (by rfl)

/-- C1: POST with two URL segments first attempts linked entity
creation; the attempt raises the fallback triggering `TypeError` exactly
when the owning entity resolution returned normally and the second
segment fails the field-exists-and-is-many-to-many check; a successful
creation attempt and a non-`TypeError` failure are never retried; and
when the second segment is not a link name but is an instance method of
the resolved entity, the request succeeds as a method call with the
method result as a 200 body. -/
theorem c1_post_two_segments_fallback (env : Env) (h : Hooks) (debug : Bool)
    (db : DB) (params : List (String × String)) (a b : String)
    (data : PyData) :
    ((∃ m, create_linked_entity env h db params (.raw a) b data =
        Except.error (.typeError m)) ↔
      ((∃ ev, get_entity env h db params (.raw a) = Except.ok ev) ∧
        fieldNotFoundOrNotLink env b = true)) ∧
    (∀ r, create_linked_entity env h db params (.raw a) b data =
        Except.ok r →
      RESTView.post env h debug db params (.json data) [a, b] =
        handle debug db (Except.ok r)) ∧
    (∀ m, create_linked_entity env h db params (.raw a) b data =
        Except.error (.typeError m) →
      RESTView.post env h debug db params (.json data) [a, b] =
        handle debug db
          ((call_entity_method env h db params (.raw a) b data).map
            (fun r => (r, db)))) ∧
    (∀ e2, create_linked_entity env h db params (.raw a) b data =
        Except.error e2 → e2.isTypeError = false →
      RESTView.post env h debug db params (.json data) [a, b] =
        handle debug db (Except.error e2)) ∧
    (∀ e mth, get_entity env h db params (.raw a) = Except.ok (.ent e) →
      fieldNotFoundOrNotLink env b = true →
      env.methodOf e.model b = some mth → mth.kind = .instM →
      RESTView.post env h debug db params (.json data) [a, b] =
        .resp ⟨200, (mth.run data).render⟩ db) := by
  refine ⟨create_linked_typeError_iff env h db params a b data, ?_, ?_, ?_, ?_⟩
  · intro r hok
    unfold RESTView.post
    simp [hok]
  · intro m herr
    unfold RESTView.post
    simp [herr]
  · intro e2 herr hnt
    unfold RESTView.post
    simp only [exc_pure, exc_bind_ok, herr]
    cases e2 with
    | typeError m => simp [Exc.isTypeError] at hnt
    | _ => rfl
  · intro e mth hge hbad hmeth hkind
    have htyp : ∃ m, create_linked_entity env h db params (.raw a) b data =
        Except.error (.typeError m) :=
      (create_linked_typeError_iff env h db params a b data).mpr
        ⟨⟨.ent e, hge⟩, hbad⟩
    obtain ⟨m, hm⟩ := htyp
    have hcall : call_entity_method env h db params (.raw a) b data =
        Except.ok (.val (mth.run data)) := by
      unfold call_entity_method instanceAttr
      simp [hge, hmeth, hkind]
    unfold RESTView.post
    simp [hm, hcall]

/-- Witness for C1: `frob` is not a field of Widget but is an instance
method, so POST `/widgets/7/frob` succeeds as a method call. -/
theorem c1_witness :
    RESTView.post widgetEnv defaultHooks true db0 [] (.json (.dict []))
      ["7", "frob"] = .resp ⟨200, (frobMethod.run (.dict [])).render⟩ db0 :=
  (c1_post_two_segments_fallback widgetEnv defaultHooks true db0 [] "7" "frob"
      (.dict [])).2.2.2.2 widget7 frobMethod (by rfl) (by rfl) (by rfl) rfl

/-- `get_entity` passes an already resolved entity of the right model
through its authorization check. -/
theorem get_entity_value_ent (env : Env) (h : Hooks) (db : DB)
    (params : List (String × String)) (e : Entity)
    (hm : e.model = env.model) (hcg : h.can_get_entity e = true) :
    get_entity env h db params (.value (.ent e)) = Except.ok (.ent e) := by
  unfold get_entity
  simp [hm, hcg]

/-- C2 counterexample: DELETE `/widgets/7/tags/3` removes the link and
keeps both entities, but the identical repeated call is not a no-op
success — it raises the 404 `TypeError` because tag 3 is no longer in
the linked collection of widget 7. -/
theorem c2_counterexample :
    RESTView.delete widgetEnv defaultHooks true db0 [] ["7", "tags", "3"] =
      .resp ⟨204, ""⟩ db1 ∧
    db1.entities = db0.entities ∧
    RESTView.delete widgetEnv defaultHooks true db1 [] ["7", "tags", "3"] =
      .raise404 (some "There is no Tag instance with primary key: 3") :=
  ⟨rfl, rfl, rfl⟩

/-- C2 amended: deleting a linked entity removes only the link row, so
both endpoint entities remain stored and the owner remains resolvable;
but the identical repeated call is not a no-op — it fails with the 404
surfaced NotFound `TypeError`, since the linked entity is no longer in
the (now empty) linked collection. -/
theorem c2_delete_linked_repeat (env : Env) (debug : Bool) (db : DB)
    (a b c : String) (n m2 : Nat) (e le : Entity) (f : Field)
    (hpa : parsePk a = some n)
    (he : (db.entities.filter (fun x => x.model == env.model)).filter
        (fun x => x.pk == n) = [e])
    (hf : (env.metaOf e.model).fields.find? (fun x => x.name == b) = some f)
    (hm2m : f.m2m = true)
    (hpc : parsePk c = some m2)
    (hle : (db.entities.filter (fun x =>
        x.model == f.rel.getD 0 &&
          db.links.contains (e.model, e.pk, b, x.pk))).filter
        (fun x => x.pk == m2) = [le]) :
    RESTView.delete env defaultHooks debug db [] [a, b, c] =
      .resp ⟨204, ""⟩ (removeLink db e b le) ∧
    (removeLink db e b le).entities = db.entities ∧
    get_entity env defaultHooks (removeLink db e b le) [] (.raw a) =
      Except.ok (.ent e) ∧
    RESTView.delete env defaultHooks debug (removeLink db e b le) []
        [a, b, c] =
      .raise404 (if debug then
        some ("There is no " ++ (env.metaOf (f.rel.getD 0)).name ++
          " instance with primary key: " ++ c)
        else none) := by
  -- facts extracted from the resolution hypotheses
  have hmem : e ∈ (db.entities.filter
      (fun x => x.model == env.model)).filter (fun x => x.pk == n) := by
    rw [he]; exact List.mem_singleton_self e
  have h1 := List.mem_filter.mp hmem
  have h2 := List.mem_filter.mp h1.1
  have hem : e.model = env.model := beq_iff_eq.mp h2.2
  have hlemem : le ∈ (db.entities.filter (fun x =>
      x.model == f.rel.getD 0 &&
        db.links.contains (e.model, e.pk, b, x.pk))).filter
      (fun x => x.pk == m2) := by
    rw [hle]; exact List.mem_singleton_self le
  have hl1 := List.mem_filter.mp hlemem
  have hlepk : le.pk = m2 := beq_iff_eq.mp hl1.2
  -- the first resolution chain
  have hge : get_entity env defaultHooks db [] (.raw a) =
      Except.ok (.ent e) :=
    get_entity_raw_found env defaultHooks db [] a n e (base_queryset env db)
      (filter_queryset_nil db (base_queryset env db)) hpa he rfl
  have hql := get_linked_queryset_ent_ok env db e b f hf hm2m
  have hgle : get_linked_entity env defaultHooks db []
      (.value (.ent e)) b c = Except.ok (.ent le) := by
    unfold get_linked_entity
    rw [get_entity_value_ent env defaultHooks db [] e hem rfl]
    simp only [exc_bind_ok, hql, filter_queryset_nil, hpc, hle]
    rfl
  have hfirst : delete_linked_entity env defaultHooks db [] (.raw a) b c =
      Except.ok (.none, removeLink db e b le) := by
    unfold delete_linked_entity
    simp only [hge, exc_bind_ok, hgle]
    simp [defaultHooks, Hooks.ofBase, hql]
  refine ⟨?_, rfl, ?_, ?_⟩
  · unfold RESTView.delete
    simp [hfirst]
  · exact get_entity_raw_found env defaultHooks (removeLink db e b le) [] a n
      e (base_queryset env (removeLink db e b le))
      (filter_queryset_nil _ _) hpa he rfl
  · -- the second call: the link row is gone, so the linked lookup fails
    have hge2 : get_entity env defaultHooks (removeLink db e b le) []
        (.raw a) = Except.ok (.ent e) :=
      get_entity_raw_found env defaultHooks (removeLink db e b le) [] a n e
        (base_queryset env (removeLink db e b le))
        (filter_queryset_nil _ _) hpa he rfl
    have hql2 := get_linked_queryset_ent_ok env (removeLink db e b le) e b f
      hf hm2m
    have hnone : ((removeLink db e b le).entities.filter (fun x =>
        x.model == f.rel.getD 0 &&
          (removeLink db e b le).links.contains
            (e.model, e.pk, b, x.pk))).filter (fun x => x.pk == m2) = [] := by
      rw [List.filter_eq_nil_iff]
      intro x hx
      intro hpk
      have hx2 := (List.mem_filter.mp hx).2
      have hcont : (removeLink db e b le).links.contains
          (e.model, e.pk, b, x.pk) = true := (Bool.and_elim_right hx2)
      have hxpk : x.pk = m2 := beq_iff_eq.mp hpk
      rw [hxpk, ← hlepk] at hcont
      have := contains_filter_ne_self db.links (e.model, e.pk, b, le.pk)
      unfold removeLink at hcont
      simp only at hcont
      rw [this] at hcont
      exact Bool.false_ne_true hcont
    have hgle2 : get_linked_entity env defaultHooks (removeLink db e b le) []
        (.value (.ent e)) b c =
        Except.error (.typeError
          ("There is no " ++ (env.metaOf (f.rel.getD 0)).name ++
            " instance with primary key: " ++ c)) := by
      unfold get_linked_entity
      rw [get_entity_value_ent env defaultHooks (removeLink db e b le) [] e
        hem rfl]
      simp only [exc_bind_ok, hql2, filter_queryset_nil, hpc, hnone]
      rfl
    have hsecond : delete_linked_entity env defaultHooks
        (removeLink db e b le) [] (.raw a) b c =
        Except.error (.typeError
          ("There is no " ++ (env.metaOf (f.rel.getD 0)).name ++
            " instance with primary key: " ++ c)) := by
      unfold delete_linked_entity
      simp only [hge2, exc_bind_ok, hgle2, exc_bind_error]
    unfold RESTView.delete
    simp [hsecond]

/-- Witness for C2 amended at the concrete widget/tag fixture. -/
theorem c2_witness :
    RESTView.delete widgetEnv defaultHooks true db0 [] ["7", "tags", "3"] =
      .resp ⟨204, ""⟩ (removeLink db0 widget7 "tags" tag3) ∧
    (removeLink db0 widget7 "tags" tag3).entities = db0.entities ∧
    get_entity widgetEnv defaultHooks (removeLink db0 widget7 "tags" tag3) []
      (.raw "7") = Except.ok (.ent widget7) ∧
    RESTView.delete widgetEnv defaultHooks true
        (removeLink db0 widget7 "tags" tag3) [] ["7", "tags", "3"] =
      .raise404 (if true then
        some ("There is no " ++ (widgetEnv.metaOf
          ((⟨"tags", false, false, some 1, true⟩ : Field).rel.getD 0)).name ++
          " instance with primary key: " ++ "3")
        else none) :=
  c2_delete_linked_repeat widgetEnv true db0 "7" "tags" "3" 7 3 widget7 tag3
    ⟨"tags", false, false, some 1, true⟩ (by rfl) (by rfl) (by rfl) rfl
    (by rfl) (by rfl)

theorem addLink_entities (db : DB) (e : Entity) (link : String)
    (le : Entity) : (addLink db e link le).entities = db.entities := by
  unfold addLink
  split <;> rfl

theorem map_replace_self (l : List Entity) (e : Entity)
    (hu : ∀ x ∈ l, (x.model == e.model && x.pk == e.pk) = true → x = e) :
    l.map (fun x =>
      if x.model == e.model && x.pk == e.pk then e else x) = l := by
  induction l with
  | nil => rfl
  | cons x xs ih =>
    simp only [List.map]
    have hx : (if (x.model == e.model && x.pk == e.pk) = true then e else x) =
        x := by
      by_cases hc : (x.model == e.model && x.pk == e.pk) = true
      · rw [if_pos hc, hu x (by simp) hc]
      · rw [if_neg hc]
    rw [hx, ih (fun y hy hc => hu y (by simp [hy]) hc)]

/-- C7: `create_linked_entity` resolves the owning entity and the linked
model; a non-dictionary body raises `ValueError`; the dictionary is used
only to *look up* an existing linked entity, failing with the NotFound
`Http404` when none matches; `can_create_linked_entity` is consulted
before any mutation (a false answer returns the forbidden response with
the store untouched); on success the link row is added and the owning
entity is re-saved, and no entity row is ever created. -/
theorem c7_create_linked_entity_contract (env : Env) (h : Hooks) (db : DB)
    (a b : String) (n : Nat) (e : Entity) (f : Field)
    (hpa : parsePk a = some n)
    (he : (db.entities.filter (fun x => x.model == env.model)).filter
        (fun x => x.pk == n) = [e])
    (hcg : h.can_get_entity e = true)
    (hf : env.meta.fields.find? (fun x => x.name == b) = some f)
    (hm2m : f.m2m = true) :
    (create_linked_entity env h db [] (.raw a) b .other =
      Except.error (.valueError "POST data should contain dictionary")) ∧
    (∀ kvs, db.entities.filter (fun x => x.model == f.rel.getD 0 &&
        kvs.all (fun p => x.val p.1 == some p.2)) = [] →
      create_linked_entity env h db [] (.raw a) b (.dict kvs) =
        Except.error (.http404 "No object matches the given query.")) ∧
    (∀ kvs le, db.entities.filter (fun x => x.model == f.rel.getD 0 &&
        kvs.all (fun p => x.val p.1 == some p.2)) = [le] →
      h.can_create_linked_entity e b le = false →
      create_linked_entity env h db [] (.raw a) b (.dict kvs) =
        Except.ok (.forbidden, db)) ∧
    (∀ kvs le, db.entities.filter (fun x => x.model == f.rel.getD 0 &&
        kvs.all (fun p => x.val p.1 == some p.2)) = [le] →
      h.can_create_linked_entity e b le = true →
      create_linked_entity env h db [] (.raw a) b (.dict kvs) =
        Except.ok (.none, saveEntity (addLink db e b le) e) ∧
      (saveEntity (addLink db e b le) e).entities = db.entities) := by
  have hmem : e ∈ (db.entities.filter
      (fun x => x.model == env.model)).filter (fun x => x.pk == n) := by
    rw [he]; exact List.mem_singleton_self e
  have h1 := List.mem_filter.mp hmem
  have h2 := List.mem_filter.mp h1.1
  have hem : e.model = env.model := beq_iff_eq.mp h2.2
  have hepk : e.pk = n := beq_iff_eq.mp h1.2
  have hge : get_entity env h db [] (.raw a) = Except.ok (.ent e) :=
    get_entity_raw_found env h db [] a n e (base_queryset env db)
      (filter_queryset_nil db (base_queryset env db)) hpa he hcg
  have hglm : get_linked_model env b = Except.ok (f.rel.getD 0) := by
    unfold get_linked_model
    simp [hf, hm2m]
  have hf2 : (env.metaOf e.model).fields.find? (fun x => x.name == b) =
      some f := by
    rw [hem]; exact hf
  have hql := get_linked_queryset_ent_ok env db e b f hf2 hm2m
  have hsave : ∀ le, (saveEntity (addLink db e b le) e).entities =
      db.entities := by
    intro le
    unfold saveEntity
    rw [addLink_entities]
    exact map_replace_self db.entities e (fun x hx hc => by
      have hxm : x.model = e.model := beq_iff_eq.mp (Bool.and_elim_left hc)
      have hxpk : x.pk = e.pk := beq_iff_eq.mp (Bool.and_elim_right hc)
      have hx2 : x ∈ (db.entities.filter
          (fun y => y.model == env.model)).filter (fun y => y.pk == n) := by
        refine List.mem_filter.mpr ⟨List.mem_filter.mpr ⟨hx, ?_⟩, ?_⟩
        · exact beq_iff_eq.mpr (by rw [hxm, hem])
        · exact beq_iff_eq.mpr (by rw [hxpk, hepk])
      rw [he] at hx2
      exact List.mem_singleton.mp hx2)
  refine ⟨?_, ?_, ?_, ?_⟩
  · unfold create_linked_entity
    simp only [hge, exc_bind_ok, hglm, hql]
    rfl
  · intro kvs hempty
    unfold create_linked_entity
    simp only [hge, exc_bind_ok, hglm, hql]
    have hgo : getObjectOr404 db (f.rel.getD 0)
        (fun x => kvs.all (fun p => x.val p.1 == some p.2)) =
        Except.error (.http404 "No object matches the given query.") := by
      unfold getObjectOr404
      rw [hempty]
    simp only [hgo, exc_bind_error]
  · intro kvs le hone hforb
    unfold create_linked_entity
    simp only [hge, exc_bind_ok, hglm, hql]
    have hgo : getObjectOr404 db (f.rel.getD 0)
        (fun x => kvs.all (fun p => x.val p.1 == some p.2)) =
        Except.ok le := by
      unfold getObjectOr404
      rw [hone]
    simp only [hgo, exc_bind_ok, hforb]
    rfl
  · intro kvs le hone hok
    have hgo : getObjectOr404 db (f.rel.getD 0)
        (fun x => kvs.all (fun p => x.val p.1 == some p.2)) =
        Except.ok le := by
      unfold getObjectOr404
      rw [hone]
    constructor
    · unfold create_linked_entity
      simp only [hge, exc_bind_ok, hglm, hql, hgo, hok]
      rfl
    · exact hsave le

/-- Witness for C7: creating the tags link of widget 7 by looking tag 3
up through its label, in a store without the link. -/
theorem c7_witness :
    create_linked_entity widgetEnv defaultHooks db1 [] (.raw "7") "tags"
        (.dict [("label", .s "blue")]) =
      Except.ok (.none,
        saveEntity (addLink db1 widget7 "tags" tag3) widget7) ∧
    (saveEntity (addLink db1 widget7 "tags" tag3) widget7).entities =
      db1.entities :=
  (c7_create_linked_entity_contract widgetEnv defaultHooks db1 "7" "tags" 7
      widget7 ⟨"tags", false, false, some 1, true⟩ (by rfl) (by rfl) rfl
      (by rfl) (by rfl)).2.2.2 [("label", .s "blue")] tag3 (by rfl) rfl

/-- A store without widget 7. -/
def dbNoWidget : DB := ⟨[tag3], [], 100⟩

/-- C3 (code bug): the NotFound conditions do not uniformly surface as
404.  An absent entity, and a malformed primary key, hit the stale
`instance_pk` name in the `except` branches of `get_entity`, raise
`NameError`, fall to the catch-all handler and surface as 400; an absent
referenced filter value raises `Http404` *inside* the `try` block, is
caught by `except Exception`, and also surfaces as 400.  Only the absent
*linked* entity path (whose messages use the defined
`linked_instance_pk`) raises the `TypeError` that reaches 404, with its
message gated by the debug flag as claimed. -/
theorem c3_notfound_surfaces_as_400 :
    (RESTView.get widgetEnv defaultHooks true dbNoWidget [] ["7"] =
      .resp ⟨400, "global name instance_pk is not defined"⟩ dbNoWidget) ∧
    (RESTView.get widgetEnv defaultHooks false dbNoWidget [] ["7"] =
      .resp ⟨400, ""⟩ dbNoWidget) ∧
    (RESTView.get widgetEnv defaultHooks true db0 [("tags", "99")] [] =
      .resp ⟨400, "No object matches the given query."⟩ db0) ∧
    (RESTView.get widgetEnv defaultHooks true db0 [] ["x"] =
      .resp ⟨400, "global name instance_pk is not defined"⟩ db0) ∧
    (RESTView.get widgetEnv defaultHooks true db0 [] ["7", "tags", "99"] =
      .raise404 (some "There is no Tag instance with primary key: 99")) ∧
    (RESTView.get widgetEnv defaultHooks false db0 [] ["7", "tags", "99"] =
      .raise404 none) :=
  ⟨rfl, rfl, rfl, rfl, rfl, rfl⟩

/-- The widget created by POSTing `name = foo` to the collection. -/
def widgetFoo : Entity := ⟨0, 100, [("name", .s "foo")]⟩

/-- C9 (code bug): POST to the 0 segment collection path with a valid
editable field mapping persists a new entity whose fields equal the
submitted values and whose primary key is the one assigned by storage —
but the handler replies 200 with the serialised entity as a JSON body,
not the 302 redirect promised by the route documentation
(`HttpResponseRedirect` is imported and never used). -/
theorem c9_post_collection_persists_but_replies_200 :
    RESTView.post widgetEnv defaultHooks true db0 []
        (.json (.dict [("name", .s "foo")])) [] =
      .resp ⟨200, "\x22object(0, 100)\x22"⟩
        ⟨db0.entities ++ [widgetFoo], db0.links, db0.nextPk + 1⟩ ∧
    widgetFoo.pk = db0.nextPk ∧
    widgetFoo.val "name" = some (.s "foo") ∧
    widgetFoo.model = widgetEnv.model :=
  ⟨rfl, rfl, rfl, rfl⟩

end RestApi
